import Mathlib

/-!
# Query admission in c-ares: `ares_send_ex` (src/lib/ares_send.c)

A shallow embedding of `ares_send_ex` and of the legacy entry point
`ares_send`.  Pointers are natural numbers with `NULL = 0`.  `ares_send_ex` is
a state transformer over

* the channel (policy flags, EDNS payload size, server list, the all-queries
  list and the qid-keyed index),
* the live `struct query` objects, keyed by address,
* a chronological trace of the calls that leave the function: allocator calls,
  container insertions, completion-callback invocations and the handoff to
  `ares__send_query`.

Everything the environment decides (what `ares_malloc` returns, whether a
container insertion succeeds, the clock, the status of the handoff) is read
from an `Env` value, so a statement quantified over `Env` holds for every
allocator and container behaviour.  The completion callback is caller code: an
invocation is recorded in the trace together with the channel as it is at that
moment, and is given no effect of its own.  The effects of `ares__send_query`
lie outside this file: the embedding stops at the handoff, so the final state
of a successful admission is the state in which the handoff is made.
-/

namespace Ares

/-! ## Constants and types declared outside ares_send.c -/

/-- The null pointer. -/
def NULL : Nat := 0

/-- Modelled from the spec: HFIXEDSZ (ares_nameser.h) lives outside
ares_send.c; the specification gives the size of the fixed header as 12. -/
def HFIXEDSZ : Nat := 12

/-- Modelled from the spec: PACKETSZ (ares_nameser.h) lives outside
ares_send.c; it is the legacy maximum UDP message size, 512 bytes. -/
def PACKETSZ : Nat := 512

/-- Modelled from the spec: ARES_FLAG_USEVC (ares.h) lives outside ares_send.c;
the specification calls it the force-TCP policy.  It is a single bit of the
channel flags. -/
def ARES_FLAG_USEVC : Nat := 1 <<< 0

/-- Modelled from the spec: ARES_FLAG_EDNS (ares.h) lives outside ares_send.c;
the specification calls it the EDNS-enabled policy.  It is a single bit of the
channel flags, different from the force-TCP bit. -/
def ARES_FLAG_EDNS : Nat := 1 <<< 8

/-- Status codes.  The enum is declared in ares.h; ares_send.c names four of
its members, every other member is `other code`. -/
inductive ares_status_t where
  | ARES_SUCCESS
  | ARES_ESERVFAIL
  | ARES_EBADQUERY
  | ARES_ENOMEM
  | other (code : Nat)
  deriving DecidableEq, Repr

open ares_status_t

/-- A `struct timeval`. -/
structure timeval where
  tv_sec : Int
  tv_usec : Int
  deriving DecidableEq, Repr

/-- An owned byte buffer: the address `ares_malloc` returned and the bytes
stored there.  The null buffer has address `NULL` and no bytes. -/
structure buffer where
  addr : Nat
  bytes : List Nat
  deriving DecidableEq, Repr

/-- The fields of `struct query` that ares_send.c touches. -/
structure struct_query where
  channel : Nat
  qid : Nat
  timeout : timeval
  qbuf : buffer
  qlen : Nat
  callback : Nat
  arg : Nat
  try_count : Nat
  using_tcp : Bool
  error_status : ares_status_t
  timeouts : Nat
  node_queries_by_timeout : Nat
  node_queries_to_conn : Nat
  node_all_queries : Nat
  deriving DecidableEq, Repr

/-- The fields of the channel that ares_send.c touches.  `all_queries` lists
(node, query) pairs in insertion order, `queries_by_qid` lists (qid, query)
entries; a query is named by its address. -/
structure ares_channel_t where
  addr : Nat
  flags : Nat
  ednspsz : Nat
  servers : List Nat
  all_queries : List (Nat × Nat)
  queries_by_qid : List (Nat × Nat)
  deriving DecidableEq, Repr

/-- The five arguments of one completion-callback invocation, preceded by the
callback that is invoked. -/
structure callback_args where
  callback : Nat
  arg : Nat
  status : ares_status_t
  timeouts : Nat
  abuf : Nat
  alen : Nat
  deriving DecidableEq, Repr

/-- What an allocator call asks for. -/
inductive alloc_size where
  | sizeof_query
  | bytes (n : Nat)
  deriving DecidableEq, Repr

/-- One call that leaves `ares_send_ex`.  A callback invocation carries the
channel as it is when the callback runs; an insertion and the handoff carry the
record that is behind the pointer they are given when they are called. -/
inductive Event where
  | ares_malloc (size : alloc_size) (ret : Nat)
  | ares_free (p : Nat)
  | ares__llist_insert_last (val : Nat) (record : Option struct_query) (ret : Nat)
  | ares__htable_szvp_insert (key : Nat) (val : Nat) (record : Option struct_query)
      (ret : Bool)
  | callback (args : callback_args) (chan : ares_channel_t)
  | ares__send_query (query : Nat) (record : Option struct_query) (now : timeval)
  deriving DecidableEq, Repr

/-- How the qid-keyed index treats a key that is already present.  The
specification leaves this open (overwrite or multi-valued). -/
inductive dup_policy where
  | overwrite
  | multi
  deriving DecidableEq, Repr

/-- Everything the environment decides during one call of `ares_send_ex`. -/
structure Env where
  malloc_query : Nat
  malloc_qbuf : Nat
  llist_node : Nat
  htable_ok : Bool
  qid_policy : dup_policy
  now : timeval
  send_query : Nat → timeval → ares_status_t

/-- The program state. -/
structure State where
  channel : ares_channel_t
  heap : Nat → Option struct_query
  trace : List Event

/-! ## Collaborators -/

/-- Append one event to the trace. -/
def log (e : Event) (s : State) : State :=
  { s with trace := s.trace ++ [e] }

/-- Write a `struct query` at an address. -/
def store (p : Nat) (q : struct_query) (s : State) : State :=
  { s with heap := fun a => if a = p then some q else s.heap a }

/-- The allocator: the environment chooses the pointer (NULL on failure). -/
def ares_malloc (ret : Nat) (size : alloc_size) (s : State) : Nat × State :=
  (ret, log (Event.ares_malloc size ret) s)

/-- Release an allocation. -/
def ares_free (p : Nat) (s : State) : State :=
  log (Event.ares_free p) { s with heap := fun a => if a = p then none else s.heap a }

/-- The result of `memset(query, 0, sizeof( *query))`. -/
def zeroed : struct_query :=
  { channel := NULL, qid := 0, timeout := ⟨0, 0⟩, qbuf := ⟨NULL, []⟩, qlen := 0,
    callback := NULL, arg := NULL, try_count := 0, using_tcp := false,
    error_status := ARES_SUCCESS, timeouts := 0, node_queries_by_timeout := NULL,
    node_queries_to_conn := NULL, node_all_queries := NULL }

/-- The bytes behind a fresh allocation of `n` bytes (none behind NULL). -/
def fresh_bytes (p n : Nat) : List Nat :=
  if p = NULL then [] else List.replicate n 0

/-- Overwrite the first `n` bytes of `dst` with the first `n` bytes of `src`. -/
def memcpy (dst : buffer) (src : List Nat) (n : Nat) : buffer :=
  { dst with bytes := src.take n ++ dst.bytes.drop n }

/-- Modelled from the spec: DNS_HEADER_QID (ares_dns.h) lives outside
ares_send.c.  It reads the 16-bit transaction ID at the fixed offset of an
encoded message: the first two bytes, most significant first. -/
def DNS_HEADER_QID (h : List Nat) : Nat :=
  ((h.getD 0 0 % 256) * 256 + h.getD 1 0 % 256) % 65536

/-- Modelled from the spec: ares__slist_len lives outside ares_send.c.  It is
the number of configured servers. -/
def ares__slist_len (servers : List Nat) : Nat :=
  servers.length

/-- Invoke the completion callback: the call is recorded with the channel as
it is now. -/
def invoke (callback arg : Nat) (status : ares_status_t) (timeouts abuf alen : Nat)
    (s : State) : State :=
  log (Event.callback ⟨callback, arg, status, timeouts, abuf, alen⟩ s.channel) s

/-- Modelled from the spec: ares__llist_insert_last lives outside ares_send.c.
The all-queries set is insertion-ordered and an insertion can fail for lack of
memory: on success the value is appended behind a new node, whose address is
returned; on failure the list is unchanged and NULL is returned. -/
def ares__llist_insert_last (env : Env) (val : Nat) (s : State) : Nat × State :=
  let s1 := log (Event.ares__llist_insert_last val (s.heap val) env.llist_node) s
  if env.llist_node = NULL then (NULL, s1)
  else (env.llist_node,
        { s1 with channel :=
            { s1.channel with all_queries := s1.channel.all_queries ++ [(env.llist_node, val)] } })

/-- Modelled from the spec: ares__llist_node_destroy lives outside ares_send.c.
It takes the node out of its list; destroying NULL does nothing. -/
def ares__llist_node_destroy (node : Nat) (l : List (Nat × Nat)) : List (Nat × Nat) :=
  if node = NULL then l else l.filter (fun e => e.1 != node)

/-- Modelled from the spec: ares__htable_szvp_insert lives outside ares_send.c.
It adds the entry key to val, or fails for lack of memory and leaves the index
unchanged.  An entry already stored under the key is dropped under the
overwrite policy and kept under the multi-valued one. -/
def ares__htable_szvp_insert (env : Env) (key val : Nat) (s : State) : Bool × State :=
  let s1 := log (Event.ares__htable_szvp_insert key val (s.heap val) env.htable_ok) s
  if env.htable_ok then
    (true,
     { s1 with channel :=
         { s1.channel with queries_by_qid :=
             match env.qid_policy with
             | dup_policy.overwrite =>
               s1.channel.queries_by_qid.filter (fun e => e.1 != key) ++ [(key, val)]
             | dup_policy.multi => s1.channel.queries_by_qid ++ [(key, val)] } })
  else (false, s1)

/-- Modelled from the spec: the lookup of the qid-keyed index lives outside
ares_send.c.  It returns the queries stored under the key. -/
def ares__htable_szvp_get (t : List (Nat × Nat)) (key : Nat) : List Nat :=
  (t.filter (fun e => e.1 == key)).map (fun e => e.2)

/-- Modelled from the spec: ares__free_query lives outside ares_send.c.  On a
failed submission it undoes the insertion into the all-queries set (it destroys
the node the record holds, if any) and releases the record: the message buffer,
then the record itself. -/
def ares__free_query (query : Nat) (s : State) : State :=
  match s.heap query with
  | none => s
  | some q =>
    let s1 : State :=
      { s with channel :=
          { s.channel with
              all_queries := ares__llist_node_destroy q.node_all_queries s.channel.all_queries } }
    ares_free query (ares_free q.qbuf.addr s1)

/-- The clock. -/
def ares__tvnow (env : Env) : timeval :=
  env.now

/-- The handoff to the transmission engine: the call is recorded and the
status the engine reports is returned. -/
def ares__send_query (env : Env) (query : Nat) (now : timeval) (s : State) :
    ares_status_t × State :=
  (env.send_query query now, log (Event.ares__send_query query (s.heap query) now) s)

/-! ## ares_send_ex -/

/-- The function `ares_send_ex` of src/lib/ares_send.c.  `qbuf` is the content
of the caller's buffer and `qlen` the length the caller passes. -/
def ares_send_ex (env : Env) (s : State) (qbuf : List Nat) (qlen : Nat)
    (callback arg : Nat) : ares_status_t × State :=
  if qlen < HFIXEDSZ ∨ qlen ≥ 1 <<< 16 then
    (ARES_EBADQUERY, invoke callback arg ARES_EBADQUERY 0 NULL 0 s)
  else if ares__slist_len s.channel.servers = 0 then
    (ARES_ESERVFAIL, invoke callback arg ARES_ESERVFAIL 0 NULL 0 s)
  else
    let (query, s) := ares_malloc env.malloc_query alloc_size.sizeof_query s
    if query = NULL then
      (ARES_ENOMEM, invoke callback arg ARES_ENOMEM 0 NULL 0 s)
    else
      let q := zeroed
      let q := { q with channel := s.channel.addr }
      let (b, s) := ares_malloc env.malloc_qbuf (alloc_size.bytes qlen) s
      let q := { q with qbuf := ⟨b, fresh_bytes b qlen⟩ }
      let s := store query q s
      if q.qbuf.addr = NULL then
        let s := ares_free query s
        (ARES_ENOMEM, invoke callback arg ARES_ENOMEM 0 NULL 0 s)
      else
        let q := { q with qid := DNS_HEADER_QID qbuf }
        let q := { q with timeout := ⟨0, 0⟩ }
        let q := { q with qbuf := memcpy q.qbuf qbuf qlen }
        let q := { q with qlen := qlen }
        let q := { q with callback := callback }
        let q := { q with arg := arg }
        let q := { q with try_count := 0 }
        let packetsz :=
          if s.channel.flags &&& ARES_FLAG_EDNS ≠ 0 then s.channel.ednspsz else PACKETSZ
        let q := { q with
          using_tcp := decide (s.channel.flags &&& ARES_FLAG_USEVC ≠ 0) || decide (qlen > packetsz) }
        let q := { q with error_status := ARES_SUCCESS }
        let q := { q with timeouts := 0 }
        let q := { q with node_queries_by_timeout := NULL }
        let q := { q with node_queries_to_conn := NULL }
        let s := store query q s
        let (node, s) := ares__llist_insert_last env query s
        let q := { q with node_all_queries := node }
        let s := store query q s
        if q.node_all_queries = NULL then
          let s := invoke callback arg ARES_ENOMEM 0 NULL 0 s
          let s := ares__free_query query s
          (ARES_ENOMEM, s)
        else
          let (ok, s) := ares__htable_szvp_insert env q.qid query s
          if !ok then
            let s := invoke callback arg ARES_ENOMEM 0 NULL 0 s
            let s := ares__free_query query s
            (ARES_ENOMEM, s)
          else
            let now := ares__tvnow env
            ares__send_query env query now s

/-! ## ares_send -/

/-- The conversion `(size_t)qlen` of an int to a size_t of `w` bits: the value
modulo 2^w. -/
def size_t_of_int (w : Nat) (qlen : Int) : Nat :=
  (qlen % (2 : Int) ^ w).toNat

/-- The function `ares_send` of src/lib/ares_send.c, on a platform whose size_t
has `w` bits: it calls `ares_send_ex` with the converted length and drops the
status. -/
def ares_send (w : Nat) (env : Env) (s : State) (qbuf : List Nat) (qlen : Int)
    (callback arg : Nat) : State :=
  (ares_send_ex env s qbuf (size_t_of_int w qlen) callback arg).2

/-! ## Observations on traces and registries -/

/-- The callback invocations of a trace, in order. -/
def callback_calls (t : List Event) : List callback_args :=
  t.filterMap (fun e => match e with
    | Event.callback a _ => some a
    | _ => none)

/-- The channel seen by each callback invocation of a trace, in order. -/
def callback_views (t : List Event) : List ares_channel_t :=
  t.filterMap (fun e => match e with
    | Event.callback _ c => some c
    | _ => none)

/-- The allocation attempts of a trace: allocator calls and container
insertions. -/
def alloc_attempts (t : List Event) : List Event :=
  t.filter (fun e => match e with
    | Event.ares_malloc _ _ => true
    | Event.ares__llist_insert_last _ _ _ => true
    | Event.ares__htable_szvp_insert _ _ _ _ => true
    | _ => false)

/-- The handoffs of a trace: the record and the time of each one. -/
def handoffs (t : List Event) : List (Nat × timeval) :=
  t.filterMap (fun e => match e with
    | Event.ares__send_query q _ now => some (q, now)
    | _ => none)

/-- The record an insertion or a handoff is given, for the events that are an
insertion into the all-queries set, an insertion into the qid index or a
handoff. -/
def registered_record (e : Event) : Option (Option struct_query) :=
  match e with
  | Event.ares__llist_insert_last _ r _ => some r
  | Event.ares__htable_szvp_insert _ _ r _ => some r
  | Event.ares__send_query _ r _ => some r
  | _ => none

/-- Membership of a record in the all-queries set of a channel. -/
def in_all_queries (c : ares_channel_t) (query : Nat) : Prop :=
  query ∈ c.all_queries.map (fun e => e.2)

/-- Membership of a record in the qid-keyed index of a channel. -/
def in_queries_by_qid (c : ares_channel_t) (query : Nat) : Prop :=
  query ∈ c.queries_by_qid.map (fun e => e.2)

instance (c : ares_channel_t) (query : Nat) : Decidable (in_all_queries c query) := by
  unfold in_all_queries; infer_instance

instance (c : ares_channel_t) (query : Nat) : Decidable (in_queries_by_qid c query) := by
  unfold in_queries_by_qid; infer_instance

/-! ## Conditions on a submission -/

/-- A validated submission: the length is in range and the channel has a
server. -/
def validated (s : State) (qlen : Nat) : Prop :=
  12 ≤ qlen ∧ qlen < 65536 ∧ s.channel.servers ≠ []

/-- No allocation and no insertion fails. -/
def no_failure (env : Env) : Prop :=
  env.malloc_query ≠ NULL ∧ env.malloc_qbuf ≠ NULL ∧ env.llist_node ≠ NULL ∧
    env.htable_ok = true

/-- One of the four fallible steps fails: record allocation, message-copy
allocation, all-queries insertion, qid-index insertion. -/
def some_failure (env : Env) : Prop :=
  env.malloc_query = NULL ∨ env.malloc_qbuf = NULL ∨ env.llist_node = NULL ∨
    env.htable_ok = false

/-- The allocator hands out addresses that are not in use: the list node is
not a node of the all-queries list and the record is not registered. -/
def unused (env : Env) (s : State) : Prop :=
  env.llist_node ∉ s.channel.all_queries.map (fun e => e.1) ∧
    ¬ in_all_queries s.channel env.malloc_query ∧
    ¬ in_queries_by_qid s.channel env.malloc_query

/-- The six steps of a submission that can fail, in their fixed order, each
with whether it fails and the status it then reports: length check, server-list
check, record allocation, message allocation, all-queries insertion, qid-index
insertion. -/
def failing_steps (env : Env) (s : State) (qlen : Nat) : List (Bool × ares_status_t) :=
  [(decide (qlen < 12 ∨ 65536 ≤ qlen), ARES_EBADQUERY),
   (decide (s.channel.servers = []), ARES_ESERVFAIL),
   (decide (env.malloc_query = NULL), ARES_ENOMEM),
   (decide (env.malloc_qbuf = NULL), ARES_ENOMEM),
   (decide (env.llist_node = NULL), ARES_ENOMEM),
   (!env.htable_ok, ARES_ENOMEM)]

/-- The status of the first failing step, if a step fails. -/
def first_failure (env : Env) (s : State) (qlen : Nat) : Option ares_status_t :=
  ((failing_steps env s qlen).find? (fun step => step.1)).map (fun step => step.2)

/-! ## Sample inputs -/

/-- A channel with one server and an empty registry. -/
def sample_channel : ares_channel_t :=
  { addr := 1, flags := 0, ednspsz := 1280, servers := [7], all_queries := [],
    queries_by_qid := [] }

/-- A state around `sample_channel` with no live record. -/
def sample_state : State :=
  { channel := sample_channel, heap := fun _ => none, trace := [] }

/-- The sample state without any server. -/
def serverless_state : State :=
  { sample_state with channel := { sample_channel with servers := [] } }

/-- An environment in which nothing fails. -/
def sample_env : Env :=
  { malloc_query := 100, malloc_qbuf := 200, llist_node := 300, htable_ok := true,
    qid_policy := dup_policy.overwrite, now := ⟨5, 6⟩,
    send_query := fun _ _ => ARES_SUCCESS }

/-- An environment in which only the qid-index insertion fails. -/
def index_failure_env : Env :=
  { sample_env with htable_ok := false }

/-- A 12-byte message with transaction ID 0x1234. -/
def sample_message : List Nat :=
  [0x12, 0x34, 1, 0, 0, 1, 0, 0, 0, 0, 0, 0]

/-- An environment for a second admission, in which nothing fails. -/
def second_env : Env :=
  { sample_env with malloc_query := 101, malloc_qbuf := 201, llist_node := 301 }

/-! # Theorems -/

/-! ## Path lemmas -/

theorem length_check_iff (qlen : Nat) :
    (qlen < HFIXEDSZ ∨ qlen ≥ 1 <<< 16) ↔ (qlen < 12 ∨ 65536 ≤ qlen) := by
  simp [HFIXEDSZ]

theorem bad_length_path (env : Env) (s : State) (qbuf : List Nat) (qlen : Nat)
    (callback arg : Nat) (h : qlen < 12 ∨ 65536 ≤ qlen) :
    ares_send_ex env s qbuf qlen callback arg =
      (ARES_EBADQUERY, invoke callback arg ARES_EBADQUERY 0 NULL 0 s) := by
  unfold ares_send_ex
  rw [if_pos ((length_check_iff qlen).2 h)]

theorem no_server_path (env : Env) (s : State) (qbuf : List Nat) (qlen : Nat)
    (callback arg : Nat) (h1 : 12 ≤ qlen) (h2 : qlen < 65536) (h : s.channel.servers = []) :
    ares_send_ex env s qbuf qlen callback arg =
      (ARES_ESERVFAIL, invoke callback arg ARES_ESERVFAIL 0 NULL 0 s) := by
  unfold ares_send_ex
  rw [if_neg (by rw [length_check_iff]; omega), if_pos (by simp [ares__slist_len, h])]

theorem no_query_path (env : Env) (s : State) (qbuf : List Nat) (qlen : Nat)
    (callback arg : Nat) (h1 : 12 ≤ qlen) (h2 : qlen < 65536) (h : s.channel.servers ≠ [])
    (hq : env.malloc_query = NULL) :
    (ares_send_ex env s qbuf qlen callback arg).1 = ARES_ENOMEM ∧
    (ares_send_ex env s qbuf qlen callback arg).2.channel = s.channel ∧
    (ares_send_ex env s qbuf qlen callback arg).2.trace =
      s.trace ++ [Event.ares_malloc alloc_size.sizeof_query env.malloc_query,
        Event.callback ⟨callback, arg, ARES_ENOMEM, 0, NULL, 0⟩ s.channel] := by
  unfold ares_send_ex
  rw [if_neg (by rw [length_check_iff]; omega), if_neg (by simp [ares__slist_len, h])]
  simp [ares_malloc, hq, invoke, log]

theorem no_qbuf_path (env : Env) (s : State) (qbuf : List Nat) (qlen : Nat)
    (callback arg : Nat) (h1 : 12 ≤ qlen) (h2 : qlen < 65536) (h : s.channel.servers ≠ [])
    (hq : env.malloc_query ≠ NULL) (hb : env.malloc_qbuf = NULL) :
    (ares_send_ex env s qbuf qlen callback arg).1 = ARES_ENOMEM ∧
    (ares_send_ex env s qbuf qlen callback arg).2.channel = s.channel ∧
    (ares_send_ex env s qbuf qlen callback arg).2.trace =
      s.trace ++ [Event.ares_malloc alloc_size.sizeof_query env.malloc_query,
        Event.ares_malloc (alloc_size.bytes qlen) env.malloc_qbuf,
        Event.ares_free env.malloc_query,
        Event.callback ⟨callback, arg, ARES_ENOMEM, 0, NULL, 0⟩ s.channel] := by
  unfold ares_send_ex
  rw [if_neg (by rw [length_check_iff]; omega), if_neg (by simp [ares__slist_len, h])]
  simp [ares_malloc, hq, hb, invoke, log, store, ares_free]

theorem no_node_path (env : Env) (s : State) (qbuf : List Nat) (qlen : Nat)
    (callback arg : Nat) (h1 : 12 ≤ qlen) (h2 : qlen < 65536) (h : s.channel.servers ≠ [])
    (hq : env.malloc_query ≠ NULL) (hb : env.malloc_qbuf ≠ NULL) (hn : env.llist_node = NULL) :
    (ares_send_ex env s qbuf qlen callback arg).1 = ARES_ENOMEM ∧
    (ares_send_ex env s qbuf qlen callback arg).2.channel = s.channel ∧
    ∃ r1 : struct_query, r1.qlen = qlen ∧
    (ares_send_ex env s qbuf qlen callback arg).2.trace =
      s.trace ++ [Event.ares_malloc alloc_size.sizeof_query env.malloc_query,
        Event.ares_malloc (alloc_size.bytes qlen) env.malloc_qbuf,
        Event.ares__llist_insert_last env.malloc_query (some r1) env.llist_node,
        Event.callback ⟨callback, arg, ARES_ENOMEM, 0, NULL, 0⟩ s.channel,
        Event.ares_free env.malloc_qbuf,
        Event.ares_free env.malloc_query] := by
  unfold ares_send_ex
  rw [if_neg (by rw [length_check_iff]; omega), if_neg (by simp [ares__slist_len, h])]
  simp [ares_malloc, hq, hb, hn, ares__llist_insert_last, invoke, log, store, ares_free,
    ares__free_query, ares__llist_node_destroy, memcpy]

theorem no_entry_path (env : Env) (s : State) (qbuf : List Nat) (qlen : Nat)
    (callback arg : Nat) (h1 : 12 ≤ qlen) (h2 : qlen < 65536) (h : s.channel.servers ≠ [])
    (hq : env.malloc_query ≠ NULL) (hb : env.malloc_qbuf ≠ NULL) (hn : env.llist_node ≠ NULL)
    (hk : env.htable_ok = false) :
    (ares_send_ex env s qbuf qlen callback arg).1 = ARES_ENOMEM ∧
    (ares_send_ex env s qbuf qlen callback arg).2.channel =
      { s.channel with
        all_queries := (s.channel.all_queries ++ [(env.llist_node, env.malloc_query)]).filter
          (fun e => e.1 != env.llist_node) } ∧
    ∃ r1 r2 : struct_query, r1.qlen = qlen ∧ r2.qlen = qlen ∧
    (ares_send_ex env s qbuf qlen callback arg).2.trace =
      s.trace ++ [Event.ares_malloc alloc_size.sizeof_query env.malloc_query,
        Event.ares_malloc (alloc_size.bytes qlen) env.malloc_qbuf,
        Event.ares__llist_insert_last env.malloc_query (some r1) env.llist_node,
        Event.ares__htable_szvp_insert (DNS_HEADER_QID qbuf) env.malloc_query (some r2) false,
        Event.callback ⟨callback, arg, ARES_ENOMEM, 0, NULL, 0⟩
          { s.channel with
            all_queries := s.channel.all_queries ++ [(env.llist_node, env.malloc_query)] },
        Event.ares_free env.malloc_qbuf,
        Event.ares_free env.malloc_query] := by
  unfold ares_send_ex
  rw [if_neg (by rw [length_check_iff]; omega), if_neg (by simp [ares__slist_len, h])]
  simp [ares_malloc, hq, hb, hn, hk, ares__llist_insert_last, ares__htable_szvp_insert, invoke,
    log, store, ares_free, ares__free_query, ares__llist_node_destroy, memcpy]

theorem filter_unused_node (l : List (Nat × Nat)) (n p : Nat)
    (hf : n ∉ l.map (fun e => e.1)) :
    (l ++ [(n, p)]).filter (fun e => e.1 != n) = l := by
  rw [List.filter_append]
  have h1 : l.filter (fun e => e.1 != n) = l := by
    apply List.filter_eq_self.2
    intro e he
    have : e.1 ≠ n := by
      intro hc
      exact hf (List.mem_map.2 ⟨e, he, hc⟩)
    simpa using this
  simp [h1]

theorem admitted_status (env : Env) (s : State) (qbuf : List Nat) (qlen : Nat)
    (callback arg : Nat) (hv : validated s qlen) (hs : no_failure env) :
    (ares_send_ex env s qbuf qlen callback arg).1 = env.send_query env.malloc_query env.now := by
  obtain ⟨h1, h2, h⟩ := hv
  obtain ⟨hq, hb, hn, hk⟩ := hs
  unfold ares_send_ex
  rw [if_neg (by rw [length_check_iff]; omega), if_neg (by simp [ares__slist_len, h])]
  simp [ares_malloc, hq, hb, ares__llist_insert_last, hn, ares__htable_szvp_insert, hk,
    ares__send_query, ares__tvnow]

theorem admitted_trace (env : Env) (s : State) (qbuf : List Nat) (qlen : Nat)
    (callback arg : Nat) (hv : validated s qlen) (hs : no_failure env) :
    ∃ r1 r2 r3 : struct_query, r1.qlen = qlen ∧ r2.qlen = qlen ∧ r3.qlen = qlen ∧
    (ares_send_ex env s qbuf qlen callback arg).2.trace =
      s.trace ++ [Event.ares_malloc alloc_size.sizeof_query env.malloc_query,
        Event.ares_malloc (alloc_size.bytes qlen) env.malloc_qbuf,
        Event.ares__llist_insert_last env.malloc_query (some r1) env.llist_node,
        Event.ares__htable_szvp_insert (DNS_HEADER_QID qbuf) env.malloc_query (some r2) true,
        Event.ares__send_query env.malloc_query (some r3) env.now] := by
  obtain ⟨h1, h2, h⟩ := hv
  obtain ⟨hq, hb, hn, hk⟩ := hs
  unfold ares_send_ex
  rw [if_neg (by rw [length_check_iff]; omega), if_neg (by simp [ares__slist_len, h])]
  simp [ares_malloc, hq, hb, ares__llist_insert_last, hn, ares__htable_szvp_insert, hk,
    ares__send_query, ares__tvnow, log, store]
  refine ⟨_, ?_, _, ?_, _, ?_, rfl, rfl, rfl⟩ <;> rfl

theorem admitted_channel (env : Env) (s : State) (qbuf : List Nat) (qlen : Nat)
    (callback arg : Nat) (hv : validated s qlen) (hs : no_failure env) :
    (ares_send_ex env s qbuf qlen callback arg).2.channel =
      { s.channel with
        all_queries := s.channel.all_queries ++ [(env.llist_node, env.malloc_query)],
        queries_by_qid :=
          match env.qid_policy with
          | dup_policy.overwrite =>
            s.channel.queries_by_qid.filter (fun e => e.1 != DNS_HEADER_QID qbuf) ++
              [(DNS_HEADER_QID qbuf, env.malloc_query)]
          | dup_policy.multi =>
            s.channel.queries_by_qid ++ [(DNS_HEADER_QID qbuf, env.malloc_query)] } := by
  obtain ⟨h1, h2, h⟩ := hv
  obtain ⟨hq, hb, hn, hk⟩ := hs
  unfold ares_send_ex
  rw [if_neg (by rw [length_check_iff]; omega), if_neg (by simp [ares__slist_len, h])]
  simp [ares_malloc, hq, hb, ares__llist_insert_last, hn, ares__htable_szvp_insert, hk,
    ares__send_query, ares__tvnow, log, store]

theorem admitted_record (env : Env) (s : State) (qbuf : List Nat) (qlen : Nat)
    (callback arg : Nat) (hv : validated s qlen) (hs : no_failure env) :
    (ares_send_ex env s qbuf qlen callback arg).2.heap env.malloc_query =
      some { channel := s.channel.addr,
             qid := DNS_HEADER_QID qbuf,
             timeout := ⟨0, 0⟩,
             qbuf := ⟨env.malloc_qbuf, qbuf.take qlen ++ (List.replicate qlen 0).drop qlen⟩,
             qlen := qlen,
             callback := callback,
             arg := arg,
             try_count := 0,
             using_tcp := decide (s.channel.flags &&& ARES_FLAG_USEVC ≠ 0) ||
               decide (qlen > if s.channel.flags &&& ARES_FLAG_EDNS ≠ 0 then s.channel.ednspsz
                 else PACKETSZ),
             error_status := ARES_SUCCESS,
             timeouts := 0,
             node_queries_by_timeout := NULL,
             node_queries_to_conn := NULL,
             node_all_queries := env.llist_node } := by
  obtain ⟨h1, h2, h⟩ := hv
  obtain ⟨hq, hb, hn, hk⟩ := hs
  unfold ares_send_ex
  rw [if_neg (by rw [length_check_iff]; omega), if_neg (by simp [ares__slist_len, h])]
  simp [ares_malloc, hq, hb, ares__llist_insert_last, hn, ares__htable_szvp_insert, hk,
    ares__send_query, ares__tvnow, log, store, memcpy, fresh_bytes, zeroed]

theorem sample_validated : validated sample_state 12 :=
  ⟨by decide, by decide, by decide⟩

theorem sample_no_failure : no_failure sample_env :=
  ⟨by decide, by decide, by decide, rfl⟩

/-! ## C1: a length out of range -/

/-- C1: for every channel, every buffer and every qlen with qlen < 12 or
qlen >= 65536, ares_send_ex returns ARES_EBADQUERY; the only call it makes is
one invocation of the callback with (arg, ARES_EBADQUERY, 0, NULL, 0), so it
attempts no allocation and no handoff; the all-queries set, the qid index and
the live records are what they were. -/
theorem ares_send_ex_bad_length (env : Env) (s : State) (qbuf : List Nat) (qlen : Nat)
    (callback arg : Nat) (h : qlen < 12 ∨ 65536 ≤ qlen) :
    (ares_send_ex env s qbuf qlen callback arg).1 = ARES_EBADQUERY ∧
    (ares_send_ex env s qbuf qlen callback arg).2.trace =
      s.trace ++ [Event.callback ⟨callback, arg, ARES_EBADQUERY, 0, NULL, 0⟩ s.channel] ∧
    callback_calls (ares_send_ex env s qbuf qlen callback arg).2.trace =
      callback_calls s.trace ++ [⟨callback, arg, ARES_EBADQUERY, 0, NULL, 0⟩] ∧
    alloc_attempts (ares_send_ex env s qbuf qlen callback arg).2.trace = alloc_attempts s.trace ∧
    handoffs (ares_send_ex env s qbuf qlen callback arg).2.trace = handoffs s.trace ∧
    (ares_send_ex env s qbuf qlen callback arg).2.channel.all_queries = s.channel.all_queries ∧
    (ares_send_ex env s qbuf qlen callback arg).2.channel.queries_by_qid =
      s.channel.queries_by_qid ∧
    (ares_send_ex env s qbuf qlen callback arg).2.heap = s.heap := by
  rw [bad_length_path env s qbuf qlen callback arg h]
  simp [invoke, log, callback_calls, alloc_attempts, handoffs]

/-- Witness of C1: an empty message of length 0 on the sample channel. -/
theorem ares_send_ex_bad_length_witness :
    ((0 : Nat) < 12 ∨ 65536 ≤ (0 : Nat)) ∧
    (ares_send_ex sample_env sample_state [] 0 1 2).1 = ARES_EBADQUERY ∧
    (ares_send_ex sample_env sample_state [] 0 1 2).2.trace =
      [Event.callback ⟨1, 2, ARES_EBADQUERY, 0, NULL, 0⟩ sample_channel] :=
  ⟨by decide,
   (ares_send_ex_bad_length sample_env sample_state [] 0 1 2 (by decide)).1,
   (ares_send_ex_bad_length sample_env sample_state [] 0 1 2 (by decide)).2.1⟩

/-! ## C2 and C3: a channel without servers -/

/-- C2, as stated, fails: on a channel without servers a message of length 0
is answered with ARES_EBADQUERY, not ARES_ESERVFAIL, because the length check
comes first. -/
theorem no_server_short_message_is_bad_query :
    serverless_state.channel.servers = [] ∧
    (ares_send_ex sample_env serverless_state [] 0 1 2).1 = ARES_EBADQUERY ∧
    (ares_send_ex sample_env serverless_state [] 0 1 2).1 ≠ ARES_ESERVFAIL := by
  decide

/-- C2, amended: on a channel whose server list is empty, ares_send_ex returns
ARES_ESERVFAIL for every buffer and every qlen with 12 <= qlen < 65536, and
ARES_EBADQUERY for every qlen < 12 or >= 65536 (the length check runs first). -/
theorem ares_send_ex_no_server_status (env : Env) (s : State) (qbuf : List Nat) (qlen : Nat)
    (callback arg : Nat) (h : s.channel.servers = []) :
    ((12 ≤ qlen ∧ qlen < 65536) →
      (ares_send_ex env s qbuf qlen callback arg).1 = ARES_ESERVFAIL) ∧
    ((qlen < 12 ∨ 65536 ≤ qlen) →
      (ares_send_ex env s qbuf qlen callback arg).1 = ARES_EBADQUERY) := by
  constructor
  · intro hl
    rw [no_server_path env s qbuf qlen callback arg hl.1 hl.2 h]
  · intro hl
    rw [bad_length_path env s qbuf qlen callback arg hl]

/-- Witness of the amended C2: the sample message on the channel without
servers. -/
theorem ares_send_ex_no_server_status_witness :
    serverless_state.channel.servers = [] ∧
    (ares_send_ex sample_env serverless_state sample_message 12 1 2).1 = ARES_ESERVFAIL :=
  ⟨rfl, (ares_send_ex_no_server_status sample_env serverless_state sample_message 12 1 2
    rfl).1 ⟨by decide, by decide⟩⟩

/-- C3: for every qlen with 12 <= qlen < 65536 on a channel with zero servers,
ares_send_ex returns ARES_ESERVFAIL; the only call it makes is one invocation
of the callback with (arg, ARES_ESERVFAIL, 0, NULL, 0), so no allocation is
attempted and no handoff occurs; no record is created, the all-queries set and
the qid index are unchanged, and the outcome is the same for every behaviour of
the allocator and the containers. -/
theorem ares_send_ex_no_server (env : Env) (s : State) (qbuf : List Nat) (qlen : Nat)
    (callback arg : Nat) (h1 : 12 ≤ qlen) (h2 : qlen < 65536) (h : s.channel.servers = []) :
    (ares_send_ex env s qbuf qlen callback arg).1 = ARES_ESERVFAIL ∧
    (ares_send_ex env s qbuf qlen callback arg).2.trace =
      s.trace ++ [Event.callback ⟨callback, arg, ARES_ESERVFAIL, 0, NULL, 0⟩ s.channel] ∧
    callback_calls (ares_send_ex env s qbuf qlen callback arg).2.trace =
      callback_calls s.trace ++ [⟨callback, arg, ARES_ESERVFAIL, 0, NULL, 0⟩] ∧
    alloc_attempts (ares_send_ex env s qbuf qlen callback arg).2.trace = alloc_attempts s.trace ∧
    handoffs (ares_send_ex env s qbuf qlen callback arg).2.trace = handoffs s.trace ∧
    (ares_send_ex env s qbuf qlen callback arg).2.heap = s.heap ∧
    (ares_send_ex env s qbuf qlen callback arg).2.channel.all_queries = s.channel.all_queries ∧
    (ares_send_ex env s qbuf qlen callback arg).2.channel.queries_by_qid =
      s.channel.queries_by_qid ∧
    (∀ env2 : Env, ares_send_ex env2 s qbuf qlen callback arg =
      ares_send_ex env s qbuf qlen callback arg) := by
  have hp := no_server_path env s qbuf qlen callback arg h1 h2 h
  refine ⟨?_, ?_, ?_, ?_, ?_, ?_, ?_, ?_, ?_⟩
  · rw [hp]
  · rw [hp]; simp [invoke, log]
  · rw [hp]; simp [invoke, log, callback_calls]
  · rw [hp]; simp [invoke, log, alloc_attempts]
  · rw [hp]; simp [invoke, log, handoffs]
  · rw [hp]; simp [invoke, log]
  · rw [hp]; simp [invoke, log]
  · rw [hp]; simp [invoke, log]
  · intro env2
    rw [hp, no_server_path env2 s qbuf qlen callback arg h1 h2 h]

/-- Witness of C3: the sample message on the channel without servers, with an
allocator that would succeed. -/
theorem ares_send_ex_no_server_witness :
    (12 ≤ 12 ∧ 12 < 65536 ∧ serverless_state.channel.servers = []) ∧
    (ares_send_ex sample_env serverless_state sample_message 12 1 2).2.trace =
      [Event.callback ⟨1, 2, ARES_ESERVFAIL, 0, NULL, 0⟩ serverless_state.channel] :=
  ⟨⟨by decide, by decide, rfl⟩,
   (ares_send_ex_no_server sample_env serverless_state sample_message 12 1 2 (by decide)
    (by decide) rfl).2.1⟩

/-! ## C4: transport selection -/

/-- C4: for every admitted query the record has using_tcp set if and only if
the channel has ARES_FLAG_USEVC set or qlen exceeds the threshold, which is
ednspsz when ARES_FLAG_EDNS is set and 512 otherwise.  Without force-TCP and
without EDNS, length 512 selects UDP and 513 selects TCP; without force-TCP,
with EDNS and payload size 4096, length 4096 selects UDP and 4097 selects TCP.
Any other admission of a message of the same length on a channel with the same
flags and payload size selects the same transport, whatever the bytes. -/
theorem transport_selection (env : Env) (s : State) (qbuf : List Nat) (qlen : Nat)
    (callback arg : Nat) (hv : validated s qlen) (hs : no_failure env) :
    ∃ q, (ares_send_ex env s qbuf qlen callback arg).2.heap env.malloc_query = some q ∧
      (q.using_tcp = true ↔
        (s.channel.flags &&& ARES_FLAG_USEVC ≠ 0 ∨
          qlen > (if s.channel.flags &&& ARES_FLAG_EDNS ≠ 0 then s.channel.ednspsz else 512))) ∧
      (s.channel.flags &&& ARES_FLAG_USEVC = 0 → s.channel.flags &&& ARES_FLAG_EDNS = 0 →
        (qlen = 512 → q.using_tcp = false) ∧ (qlen = 513 → q.using_tcp = true)) ∧
      (s.channel.flags &&& ARES_FLAG_USEVC = 0 → s.channel.flags &&& ARES_FLAG_EDNS ≠ 0 →
        s.channel.ednspsz = 4096 →
        (qlen = 4096 → q.using_tcp = false) ∧ (qlen = 4097 → q.using_tcp = true)) ∧
      (∀ (env2 : Env) (s2 : State) (qbuf2 : List Nat) (callback2 arg2 : Nat),
        validated s2 qlen → no_failure env2 →
        s2.channel.flags = s.channel.flags → s2.channel.ednspsz = s.channel.ednspsz →
        ∃ q2, (ares_send_ex env2 s2 qbuf2 qlen callback2 arg2).2.heap env2.malloc_query =
            some q2 ∧ q2.using_tcp = q.using_tcp) := by
  refine ⟨_, admitted_record env s qbuf qlen callback arg hv hs, ?_, ?_, ?_, ?_⟩
  · simp [PACKETSZ]
  · intro hu he
    simp [hu, he, PACKETSZ]
    constructor <;> intro h <;> simp [h]
  · intro hu he hp
    simp [hu, he, hp]
    constructor <;> intro h <;> simp [h]
  · intro env2 s2 qbuf2 callback2 arg2 hv2 hs2 hf hp
    refine ⟨_, admitted_record env2 s2 qbuf2 qlen callback2 arg2 hv2 hs2, ?_⟩
    simp [hf, hp]

/-- Witness of C4: the sample message on the sample channel goes by UDP. -/
theorem transport_selection_witness :
    (validated sample_state 12 ∧ no_failure sample_env) ∧
    ∃ q, (ares_send_ex sample_env sample_state sample_message 12 1 2).2.heap
        sample_env.malloc_query = some q ∧
      (q.using_tcp = true ↔
        (sample_state.channel.flags &&& ARES_FLAG_USEVC ≠ 0 ∨
          12 > (if sample_state.channel.flags &&& ARES_FLAG_EDNS ≠ 0
            then sample_state.channel.ednspsz else 512))) :=
  ⟨⟨sample_validated, sample_no_failure⟩,
   match transport_selection sample_env sample_state sample_message 12 1 2 sample_validated
      sample_no_failure with
   | ⟨q, hq, hiff, _⟩ => ⟨q, hq, hiff⟩⟩

/-! ## C5 and C6: failures after validation -/

/-- C5: for every validated submission in which one of the four fallible steps
fails, with an allocator that hands out unused addresses, ares_send_ex returns
ARES_ENOMEM, invokes the callback exactly once with (arg, ARES_ENOMEM, 0, NULL,
0) and never reaches the handoff; after it returns the record is a member of
neither the all-queries set nor the qid index, and both equal their pre-call
contents. -/
theorem ares_send_ex_enomem (env : Env) (s : State) (qbuf : List Nat) (qlen : Nat)
    (callback arg : Nat) (hv : validated s qlen) (hf : some_failure env) (hu : unused env s) :
    (ares_send_ex env s qbuf qlen callback arg).1 = ARES_ENOMEM ∧
    callback_calls (ares_send_ex env s qbuf qlen callback arg).2.trace =
      callback_calls s.trace ++ [⟨callback, arg, ARES_ENOMEM, 0, NULL, 0⟩] ∧
    handoffs (ares_send_ex env s qbuf qlen callback arg).2.trace = handoffs s.trace ∧
    ¬ in_all_queries (ares_send_ex env s qbuf qlen callback arg).2.channel env.malloc_query ∧
    ¬ in_queries_by_qid (ares_send_ex env s qbuf qlen callback arg).2.channel
      env.malloc_query ∧
    (ares_send_ex env s qbuf qlen callback arg).2.channel.all_queries = s.channel.all_queries ∧
    (ares_send_ex env s qbuf qlen callback arg).2.channel.queries_by_qid =
      s.channel.queries_by_qid := by
  obtain ⟨h1, h2, h⟩ := hv
  obtain ⟨hnode, hra, hri⟩ := hu
  have key : (ares_send_ex env s qbuf qlen callback arg).1 = ARES_ENOMEM ∧
      (ares_send_ex env s qbuf qlen callback arg).2.channel = s.channel ∧
      callback_calls (ares_send_ex env s qbuf qlen callback arg).2.trace =
        callback_calls s.trace ++ [⟨callback, arg, ARES_ENOMEM, 0, NULL, 0⟩] ∧
      handoffs (ares_send_ex env s qbuf qlen callback arg).2.trace = handoffs s.trace := by
    by_cases hq : env.malloc_query = NULL
    · obtain ⟨a, b, c⟩ := no_query_path env s qbuf qlen callback arg h1 h2 h hq
      refine ⟨a, b, ?_, ?_⟩ <;> rw [c] <;> simp [callback_calls, handoffs]
    by_cases hb : env.malloc_qbuf = NULL
    · obtain ⟨a, b, c⟩ := no_qbuf_path env s qbuf qlen callback arg h1 h2 h hq hb
      refine ⟨a, b, ?_, ?_⟩ <;> rw [c] <;> simp [callback_calls, handoffs]
    by_cases hn : env.llist_node = NULL
    · obtain ⟨a, b, _, _, c⟩ := no_node_path env s qbuf qlen callback arg h1 h2 h hq hb hn
      refine ⟨a, b, ?_, ?_⟩ <;> rw [c] <;> simp [callback_calls, handoffs]
    have hk : env.htable_ok = false := by
      rcases hf with hf | hf | hf | hf
      · exact absurd hf hq
      · exact absurd hf hb
      · exact absurd hf hn
      · exact hf
    obtain ⟨a, b, _, _, _, _, c⟩ :=
      no_entry_path env s qbuf qlen callback arg h1 h2 h hq hb hn hk
    refine ⟨a, ?_, ?_, ?_⟩
    · rw [b, filter_unused_node _ _ _ hnode]
    · rw [c]; simp [callback_calls]
    · rw [c]; simp [handoffs]
  obtain ⟨a, b, c, d⟩ := key
  refine ⟨a, c, d, ?_, ?_, ?_, ?_⟩
  · rw [b]; exact hra
  · rw [b]; exact hri
  · rw [b]
  · rw [b]

/-- Witness of C5: the qid-index insertion fails for the sample message. -/
theorem ares_send_ex_enomem_witness :
    (validated sample_state 12 ∧ some_failure index_failure_env ∧
      unused index_failure_env sample_state) ∧
    (ares_send_ex index_failure_env sample_state sample_message 12 1 2).1 = ARES_ENOMEM ∧
    (ares_send_ex index_failure_env sample_state sample_message 12 1 2).2.channel.all_queries =
      [] :=
  have hf : some_failure index_failure_env := Or.inr (Or.inr (Or.inr rfl))
  have hu : unused index_failure_env sample_state := by
    simp [unused, in_all_queries, in_queries_by_qid, sample_state, sample_channel]
  ⟨⟨sample_validated, hf, hu⟩,
   (ares_send_ex_enomem index_failure_env sample_state sample_message 12 1 2 sample_validated
      hf hu).1,
   (ares_send_ex_enomem index_failure_env sample_state sample_message 12 1 2 sample_validated
      hf hu).2.2.2.2.2.1⟩

/-- C6 at the failing input: when the qid-index insertion fails for the sample
message, ares_send_ex invokes the callback once, and the channel the callback
sees has the record (address 100) in the all-queries set and not in the qid
index; the insertion is undone only afterwards, before ares_send_ex returns. -/
theorem callback_sees_half_registered_record :
    ∃ c, callback_views
        (ares_send_ex index_failure_env sample_state sample_message 12 1 2).2.trace = [c] ∧
      in_all_queries c 100 ∧ ¬ in_queries_by_qid c 100 ∧
      ¬ in_all_queries
        (ares_send_ex index_failure_env sample_state sample_message 12 1 2).2.channel 100 := by
  refine ⟨{ sample_channel with all_queries := [(300, 100)] }, ?_, ?_, ?_, ?_⟩ <;> decide

/-! ## C7: the state at the handoff -/

theorem mem_get_append (t : List (Nat × Nat)) (key val : Nat) :
    val ∈ ares__htable_szvp_get (t ++ [(key, val)]) key := by
  simp [ares__htable_szvp_get, List.filter_append]

theorem get_after_overwrite (t : List (Nat × Nat)) (key val : Nat) :
    ares__htable_szvp_get (t.filter (fun e => e.1 != key) ++ [(key, val)]) key = [val] := by
  have h : (t.filter (fun e => e.1 != key)).filter (fun e => e.1 == key) = [] := by
    rw [List.filter_filter]
    apply List.filter_eq_nil_iff.2
    intro e _
    by_cases hk : e.1 = key <;> simp [hk]
  simp [ares__htable_szvp_get, List.filter_append, h]

/-- C7: for every successful admission, when ares_send_ex hands off the record
is the last element of the all-queries set, behind the earlier records in their
earlier order, and the lookup of the record's id in the qid index returns the
record (and nothing else when the index overwrites); ares_send_ex has not
invoked the callback, it makes exactly one handoff, with the record and the
current time, and it returns the status the handoff returns. -/
theorem ares_send_ex_admitted (env : Env) (s : State) (qbuf : List Nat) (qlen : Nat)
    (callback arg : Nat) (hv : validated s qlen) (hs : no_failure env) :
    (ares_send_ex env s qbuf qlen callback arg).2.channel.all_queries =
      s.channel.all_queries ++ [(env.llist_node, env.malloc_query)] ∧
    (∃ q, (ares_send_ex env s qbuf qlen callback arg).2.heap env.malloc_query = some q ∧
      env.malloc_query ∈ ares__htable_szvp_get
        (ares_send_ex env s qbuf qlen callback arg).2.channel.queries_by_qid q.qid ∧
      (env.qid_policy = dup_policy.overwrite →
        ares__htable_szvp_get
          (ares_send_ex env s qbuf qlen callback arg).2.channel.queries_by_qid q.qid =
          [env.malloc_query])) ∧
    in_all_queries (ares_send_ex env s qbuf qlen callback arg).2.channel env.malloc_query ∧
    in_queries_by_qid (ares_send_ex env s qbuf qlen callback arg).2.channel env.malloc_query ∧
    callback_calls (ares_send_ex env s qbuf qlen callback arg).2.trace =
      callback_calls s.trace ∧
    handoffs (ares_send_ex env s qbuf qlen callback arg).2.trace =
      handoffs s.trace ++ [(env.malloc_query, ares__tvnow env)] ∧
    (ares_send_ex env s qbuf qlen callback arg).1 =
      env.send_query env.malloc_query (ares__tvnow env) := by
  have hc := admitted_channel env s qbuf qlen callback arg hv hs
  obtain ⟨_, _, _, _, _, _, ht⟩ := admitted_trace env s qbuf qlen callback arg hv hs
  refine ⟨?_, ⟨_, admitted_record env s qbuf qlen callback arg hv hs, ?_, ?_⟩, ?_, ?_, ?_, ?_,
    admitted_status env s qbuf qlen callback arg hv hs⟩
  · rw [hc]
  · rw [hc]
    cases env.qid_policy
    · exact mem_get_append _ _ _
    · exact mem_get_append _ _ _
  · intro hp
    rw [hc, hp]
    exact get_after_overwrite _ _ _
  · rw [hc]; simp [in_all_queries]
  · rw [hc]
    cases env.qid_policy <;> simp [in_queries_by_qid]
  · rw [ht]; simp [callback_calls]
  · rw [ht]; simp [handoffs, ares__tvnow]

/-- Witness of C7: the sample message is admitted on the sample channel. -/
theorem ares_send_ex_admitted_witness :
    (validated sample_state 12 ∧ no_failure sample_env) ∧
    (ares_send_ex sample_env sample_state sample_message 12 1 2).2.channel.all_queries =
      sample_state.channel.all_queries ++ [(sample_env.llist_node, sample_env.malloc_query)] ∧
    handoffs (ares_send_ex sample_env sample_state sample_message 12 1 2).2.trace =
      handoffs sample_state.trace ++ [(sample_env.malloc_query, ares__tvnow sample_env)] :=
  ⟨⟨sample_validated, sample_no_failure⟩,
   (ares_send_ex_admitted sample_env sample_state sample_message 12 1 2 sample_validated
      sample_no_failure).1,
   (ares_send_ex_admitted sample_env sample_state sample_message 12 1 2 sample_validated
      sample_no_failure).2.2.2.2.2.1⟩

/-! ## C9 and C10: the admitted record -/

theorem DNS_HEADER_QID_lt (h : List Nat) : DNS_HEADER_QID h < 65536 := by
  unfold DNS_HEADER_QID
  exact Nat.mod_lt _ (by decide)

theorem DNS_HEADER_QID_take (h : List Nat) (n : Nat) (hn : 2 ≤ n) :
    DNS_HEADER_QID (h.take n) = DNS_HEADER_QID h := by
  have h0 : (h.take n).getD 0 0 = h.getD 0 0 := by
    simp [List.getD_eq_getElem?_getD, List.getElem?_take, show 0 < n by omega]
  have h1 : (h.take n).getD 1 0 = h.getD 1 0 := by
    simp [List.getD_eq_getElem?_getD, List.getElem?_take, show 1 < n by omega]
  unfold DNS_HEADER_QID
  rw [h0, h1]

/-- C9: for every successful admission of a buffer that holds at least qlen
bytes, the record handed off stores, in its own allocation, exactly the first
qlen bytes of the caller's buffer, its stored length is qlen, and its id is the
transaction ID read from the caller's buffer by DNS_HEADER_QID; the id read
from the stored copy is the stored id, and it is below 65536.  The caller's
buffer is an input that is only read. -/
theorem admitted_record_message (env : Env) (s : State) (qbuf : List Nat) (qlen : Nat)
    (callback arg : Nat) (hv : validated s qlen) (hs : no_failure env)
    (hbuf : qlen ≤ qbuf.length) :
    handoffs (ares_send_ex env s qbuf qlen callback arg).2.trace =
      handoffs s.trace ++ [(env.malloc_query, ares__tvnow env)] ∧
    ∃ q, (ares_send_ex env s qbuf qlen callback arg).2.heap env.malloc_query = some q ∧
      q.qbuf.addr = env.malloc_qbuf ∧
      q.qbuf.bytes = qbuf.take qlen ∧
      q.qbuf.bytes.length = qlen ∧
      q.qlen = qlen ∧
      q.qid = DNS_HEADER_QID qbuf ∧
      DNS_HEADER_QID q.qbuf.bytes = q.qid ∧
      q.qid < 65536 := by
  obtain ⟨_, _, _, _, _, _, ht⟩ := admitted_trace env s qbuf qlen callback arg hv hs
  refine ⟨by rw [ht]; simp [handoffs, ares__tvnow],
    _, admitted_record env s qbuf qlen callback arg hv hs, rfl, ?_, ?_, rfl, rfl, ?_,
    DNS_HEADER_QID_lt qbuf⟩
  · simp
  · simp [hbuf]
  · simp only [List.drop_replicate, Nat.sub_self, List.replicate_zero, List.append_nil]
    exact DNS_HEADER_QID_take qbuf qlen (by have := hv.1; omega)

/-- Witness of C9: the sample message is stored with id 0x1234. -/
theorem admitted_record_message_witness :
    (validated sample_state 12 ∧ no_failure sample_env ∧ 12 ≤ sample_message.length) ∧
    ∃ q, (ares_send_ex sample_env sample_state sample_message 12 1 2).2.heap
        sample_env.malloc_query = some q ∧
      q.qbuf.bytes = sample_message.take 12 ∧ q.qid = DNS_HEADER_QID sample_message :=
  ⟨⟨sample_validated, sample_no_failure, by decide⟩,
   match (admitted_record_message sample_env sample_state sample_message 12 1 2
      sample_validated sample_no_failure (by decide)).2 with
   | ⟨q, hq, _, hb, _, _, hi, _⟩ => ⟨q, hq, hb, hi⟩⟩

/-- C10: for every successful admission, the record handed to ares__send_query
has try_count 0, timeouts 0, timeout 0 s and 0 us, error_status ARES_SUCCESS,
NULL timeout-list and connection-list nodes, and the callback and argument the
caller supplied. -/
theorem admitted_record_initial (env : Env) (s : State) (qbuf : List Nat) (qlen : Nat)
    (callback arg : Nat) (hv : validated s qlen) (hs : no_failure env) :
    handoffs (ares_send_ex env s qbuf qlen callback arg).2.trace =
      handoffs s.trace ++ [(env.malloc_query, ares__tvnow env)] ∧
    ∃ q, (ares_send_ex env s qbuf qlen callback arg).2.heap env.malloc_query = some q ∧
      q.try_count = 0 ∧
      q.timeouts = 0 ∧
      q.timeout.tv_sec = 0 ∧ q.timeout.tv_usec = 0 ∧
      q.error_status = ARES_SUCCESS ∧
      q.node_queries_by_timeout = NULL ∧
      q.node_queries_to_conn = NULL ∧
      q.callback = callback ∧
      q.arg = arg := by
  obtain ⟨_, _, _, _, _, _, ht⟩ := admitted_trace env s qbuf qlen callback arg hv hs
  exact ⟨by rw [ht]; simp [handoffs, ares__tvnow],
    _, admitted_record env s qbuf qlen callback arg hv hs, rfl, rfl, rfl, rfl, rfl, rfl, rfl,
    rfl, rfl⟩

/-- Witness of C10: the record of the sample message carries callback 1 and
argument 2. -/
theorem admitted_record_initial_witness :
    (validated sample_state 12 ∧ no_failure sample_env) ∧
    ∃ q, (ares_send_ex sample_env sample_state sample_message 12 1 2).2.heap
        sample_env.malloc_query = some q ∧
      q.try_count = 0 ∧ q.error_status = ARES_SUCCESS ∧ q.callback = 1 ∧ q.arg = 2 :=
  ⟨⟨sample_validated, sample_no_failure⟩,
   match (admitted_record_initial sample_env sample_state sample_message 12 1 2
      sample_validated sample_no_failure).2 with
   | ⟨q, hq, ht, _, _, _, he, _, _, hc, ha⟩ => ⟨q, hq, ht, he, hc, ha⟩⟩

/-! ## C8: two live records with one id

Whether a record stays discoverable after a later admission with the same id
depends on how the qid index treats a key that is already present, which
ares_send.c does not decide and the specification leaves open.  The two
evaluations below admit the sample message twice, at addresses 100 and 101. -/

/-- When the index overwrites, the first of two records with the same id is
still in the all-queries set and no longer found by the lookup of its id. -/
theorem same_id_when_index_overwrites :
    in_all_queries
      (ares_send_ex second_env
        (ares_send_ex sample_env sample_state sample_message 12 1 2).2
        sample_message 12 3 4).2.channel 100 ∧
    ares__htable_szvp_get
      (ares_send_ex second_env
        (ares_send_ex sample_env sample_state sample_message 12 1 2).2
        sample_message 12 3 4).2.channel.queries_by_qid 0x1234 = [101] := by
  decide

/-- When the index is multi-valued, both records with the same id are found by
the lookup of that id. -/
theorem same_id_when_index_is_multi_valued :
    ares__htable_szvp_get
      (ares_send_ex { second_env with qid_policy := dup_policy.multi }
        (ares_send_ex { sample_env with qid_policy := dup_policy.multi } sample_state
          sample_message 12 1 2).2
        sample_message 12 3 4).2.channel.queries_by_qid 0x1234 = [100, 101] := by
  decide

/-! ## C11: the length of a registered record -/

/-- C11: every record that ares_send_ex gives to the insertion into the
all-queries set, to the insertion into the qid index or to the handoff has a
stored length with 12 <= length < 65536; and every entry of the all-queries set
and of the qid index after the call either was there before or is the new
record, live and with such a length. -/
theorem registered_record_length (env : Env) (s : State) (qbuf : List Nat) (qlen : Nat)
    (callback arg : Nat) :
    (∃ new, (ares_send_ex env s qbuf qlen callback arg).2.trace = s.trace ++ new ∧
      ∀ e ∈ new, ∀ r, registered_record e = some r →
        ∃ q, r = some q ∧ 12 ≤ q.qlen ∧ q.qlen < 65536) ∧
    (∀ e ∈ (ares_send_ex env s qbuf qlen callback arg).2.channel.all_queries,
      e ∈ s.channel.all_queries ∨
      ∃ q, (ares_send_ex env s qbuf qlen callback arg).2.heap e.2 = some q ∧
        12 ≤ q.qlen ∧ q.qlen < 65536) ∧
    (∀ e ∈ (ares_send_ex env s qbuf qlen callback arg).2.channel.queries_by_qid,
      e ∈ s.channel.queries_by_qid ∨
      ∃ q, (ares_send_ex env s qbuf qlen callback arg).2.heap e.2 = some q ∧
        12 ≤ q.qlen ∧ q.qlen < 65536) := by
  by_cases hl : qlen < 12 ∨ 65536 ≤ qlen
  · rw [bad_length_path env s qbuf qlen callback arg hl]
    refine ⟨⟨_, rfl, ?_⟩, fun e he => Or.inl he, fun e he => Or.inl he⟩
    simp [registered_record]
  have h1 : 12 ≤ qlen := by omega
  have h2 : qlen < 65536 := by omega
  by_cases h : s.channel.servers = []
  · rw [no_server_path env s qbuf qlen callback arg h1 h2 h]
    refine ⟨⟨_, rfl, ?_⟩, fun e he => Or.inl he, fun e he => Or.inl he⟩
    simp [registered_record]
  by_cases hq : env.malloc_query = NULL
  · obtain ⟨_, b, c⟩ := no_query_path env s qbuf qlen callback arg h1 h2 h hq
    rw [b]
    refine ⟨⟨_, c, ?_⟩, fun e he => Or.inl he, fun e he => Or.inl he⟩
    simp [registered_record]
  by_cases hb : env.malloc_qbuf = NULL
  · obtain ⟨_, b, c⟩ := no_qbuf_path env s qbuf qlen callback arg h1 h2 h hq hb
    rw [b]
    refine ⟨⟨_, c, ?_⟩, fun e he => Or.inl he, fun e he => Or.inl he⟩
    simp [registered_record]
  by_cases hn : env.llist_node = NULL
  · obtain ⟨_, b, r1, hr1, c⟩ := no_node_path env s qbuf qlen callback arg h1 h2 h hq hb hn
    rw [b]
    refine ⟨⟨_, c, ?_⟩, fun e he => Or.inl he, fun e he => Or.inl he⟩
    simp [registered_record, hr1, h1, h2]
  by_cases hk : env.htable_ok = false
  · obtain ⟨_, b, r1, r2, hr1, hr2, c⟩ :=
      no_entry_path env s qbuf qlen callback arg h1 h2 h hq hb hn hk
    rw [b]
    refine ⟨⟨_, c, ?_⟩, ?_, fun e he => Or.inl he⟩
    · simp [registered_record, hr1, hr2, h1, h2]
    · intro e he
      left
      simp only [List.mem_filter, List.mem_append, List.mem_singleton] at he
      rcases he with ⟨he | he, hne⟩
      · exact he
      · rw [he] at hne
        simp at hne
  have hv : validated s qlen := ⟨h1, h2, h⟩
  have hs : no_failure env := ⟨hq, hb, hn, by simpa using hk⟩
  obtain ⟨r1, r2, r3, hr1, hr2, hr3, ht⟩ := admitted_trace env s qbuf qlen callback arg hv hs
  have hc := admitted_channel env s qbuf qlen callback arg hv hs
  have hrec := admitted_record env s qbuf qlen callback arg hv hs
  refine ⟨⟨_, ht, ?_⟩, ?_, ?_⟩
  · simp [registered_record, hr1, hr2, hr3, h1, h2]
  · intro e he
    rw [hc] at he
    simp only [List.mem_append, List.mem_singleton] at he
    rcases he with he | he
    · exact Or.inl he
    · right
      rw [he]
      exact ⟨_, hrec, h1, h2⟩
  · intro e he
    rw [hc] at he
    have hmem : e ∈ s.channel.queries_by_qid ∨ e = (DNS_HEADER_QID qbuf, env.malloc_query) := by
      cases hp : env.qid_policy <;> rw [hp] at he <;>
        simp only [List.mem_append, List.mem_singleton, List.mem_filter] at he
      · rcases he with he | he
        · exact Or.inl he.1
        · exact Or.inr he
      · exact he
    rcases hmem with he | he
    · exact Or.inl he
    · right
      rw [he]
      exact ⟨_, hrec, h1, h2⟩

/-! ## C12: the status of a submission -/

/-- C12: for every submission, when one of the six steps fails, the status
ares_send_ex returns is the status of the first failing step in the fixed
order, it is one of ARES_EBADQUERY, ARES_ESERVFAIL and ARES_ENOMEM, the callback
is invoked exactly once, with that status, zero timeouts, NULL and zero length,
and the handoff is not reached; when no step fails the handoff is made once,
ares_send_ex invokes the callback zero times and returns the status of the
handoff. -/
theorem ares_send_ex_status (env : Env) (s : State) (qbuf : List Nat) (qlen : Nat)
    (callback arg : Nat) :
    match first_failure env s qlen with
    | some st =>
      (st = ARES_EBADQUERY ∨ st = ARES_ESERVFAIL ∨ st = ARES_ENOMEM) ∧
      (ares_send_ex env s qbuf qlen callback arg).1 = st ∧
      callback_calls (ares_send_ex env s qbuf qlen callback arg).2.trace =
        callback_calls s.trace ++ [⟨callback, arg, st, 0, NULL, 0⟩] ∧
      handoffs (ares_send_ex env s qbuf qlen callback arg).2.trace = handoffs s.trace
    | none =>
      handoffs (ares_send_ex env s qbuf qlen callback arg).2.trace =
        handoffs s.trace ++ [(env.malloc_query, ares__tvnow env)] ∧
      callback_calls (ares_send_ex env s qbuf qlen callback arg).2.trace =
        callback_calls s.trace ∧
      (ares_send_ex env s qbuf qlen callback arg).1 =
        env.send_query env.malloc_query (ares__tvnow env) := by
  by_cases hl : qlen < 12 ∨ 65536 ≤ qlen
  · have hf : first_failure env s qlen = some ARES_EBADQUERY := by
      simp [first_failure, failing_steps, hl]
    rw [hf, bad_length_path env s qbuf qlen callback arg hl]
    simp [invoke, log, callback_calls, handoffs]
  have h1 : 12 ≤ qlen := by omega
  have h2 : qlen < 65536 := by omega
  by_cases h : s.channel.servers = []
  · have hf : first_failure env s qlen = some ARES_ESERVFAIL := by
      simp [first_failure, failing_steps, hl, h]
    rw [hf, no_server_path env s qbuf qlen callback arg h1 h2 h]
    simp [invoke, log, callback_calls, handoffs]
  by_cases hq : env.malloc_query = NULL
  · have hf : first_failure env s qlen = some ARES_ENOMEM := by
      simp [first_failure, failing_steps, hl, h, hq]
    obtain ⟨a, _, c⟩ := no_query_path env s qbuf qlen callback arg h1 h2 h hq
    rw [hf, c]
    simp [a, callback_calls, handoffs]
  by_cases hb : env.malloc_qbuf = NULL
  · have hf : first_failure env s qlen = some ARES_ENOMEM := by
      simp [first_failure, failing_steps, hl, h, hq, hb]
    obtain ⟨a, _, c⟩ := no_qbuf_path env s qbuf qlen callback arg h1 h2 h hq hb
    rw [hf, c]
    simp [a, callback_calls, handoffs]
  by_cases hn : env.llist_node = NULL
  · have hf : first_failure env s qlen = some ARES_ENOMEM := by
      simp [first_failure, failing_steps, hl, h, hq, hb, hn]
    obtain ⟨a, _, _, _, c⟩ := no_node_path env s qbuf qlen callback arg h1 h2 h hq hb hn
    rw [hf, c]
    simp [a, callback_calls, handoffs]
  by_cases hk : env.htable_ok = false
  · have hf : first_failure env s qlen = some ARES_ENOMEM := by
      simp [first_failure, failing_steps, hl, h, hq, hb, hn, hk]
    obtain ⟨a, _, _, _, _, _, c⟩ :=
      no_entry_path env s qbuf qlen callback arg h1 h2 h hq hb hn hk
    rw [hf, c]
    simp [a, callback_calls, handoffs]
  have hk2 : env.htable_ok = true := by simpa using hk
  have hf : first_failure env s qlen = none := by
    simp [first_failure, failing_steps, hl, h, hq, hb, hn, hk2]
  have hv : validated s qlen := ⟨h1, h2, h⟩
  have hs : no_failure env := ⟨hq, hb, hn, hk2⟩
  obtain ⟨_, _, _, _, _, _, ht⟩ := admitted_trace env s qbuf qlen callback arg hv hs
  rw [hf, ht]
  simp [admitted_status env s qbuf qlen callback arg hv hs, callback_calls, handoffs,
    ares__tvnow]

/-! ## C13: the legacy entry point -/

theorem size_t_of_negative_int (w : Nat) (qlen : Int) (hw : 32 ≤ w)
    (hmin : -(2 : Int) ^ (w - 1) ≤ qlen) (hneg : qlen < 0) :
    65536 ≤ size_t_of_int w qlen := by
  have hpow : (2 : Int) ^ w = 2 * (2 : Int) ^ (w - 1) := by
    have : w = (w - 1) + 1 := by omega
    conv_lhs => rw [this, pow_succ]
    ring
  have hbig : (2 : Int) ^ 31 ≤ (2 : Int) ^ (w - 1) :=
    pow_le_pow_right₀ (by norm_num) (by omega)
  have hmod : qlen % (2 : Int) ^ w = qlen + (2 : Int) ^ w := by
    rw [← Int.add_mul_emod_self_left qlen ((2 : Int) ^ w) 1, mul_one]
    exact Int.emod_eq_of_lt (by omega) (by omega)
  unfold size_t_of_int
  rw [hmod]
  have h31 : (2 : Int) ^ 31 = 2147483648 := by norm_num
  omega

theorem size_t_of_nonnegative_int (w : Nat) (qlen : Int)
    (hmax : qlen < (2 : Int) ^ (w - 1)) (hpos : 0 ≤ qlen) :
    size_t_of_int w qlen = qlen.toNat := by
  have hle : (2 : Int) ^ (w - 1) ≤ (2 : Int) ^ w :=
    pow_le_pow_right₀ (by norm_num) (by omega)
  unfold size_t_of_int
  rw [Int.emod_eq_of_lt hpos (by omega)]

/-- C13: on a platform whose size_t has w >= 32 bits and whose int is no wider
than its size_t, ares_send with a negative int qlen makes exactly one call, the
callback with ARES_EBADQUERY, zero timeouts, NULL and zero length, and leaves
the all-queries set, the qid index and the live records as they were; with
qlen >= 0 it leaves the state that ares_send_ex leaves with the same
arguments, channel and callback invocations included, and only the status is
dropped. -/
theorem ares_send_effect (w : Nat) (env : Env) (s : State) (qbuf : List Nat) (qlen : Int)
    (callback arg : Nat) (hw : 32 ≤ w) (hmin : -(2 : Int) ^ (w - 1) ≤ qlen)
    (hmax : qlen < (2 : Int) ^ (w - 1)) :
    (qlen < 0 →
      (ares_send w env s qbuf qlen callback arg).trace =
        s.trace ++ [Event.callback ⟨callback, arg, ARES_EBADQUERY, 0, NULL, 0⟩ s.channel] ∧
      callback_calls (ares_send w env s qbuf qlen callback arg).trace =
        callback_calls s.trace ++ [⟨callback, arg, ARES_EBADQUERY, 0, NULL, 0⟩] ∧
      (ares_send w env s qbuf qlen callback arg).channel.all_queries = s.channel.all_queries ∧
      (ares_send w env s qbuf qlen callback arg).channel.queries_by_qid =
        s.channel.queries_by_qid ∧
      (ares_send w env s qbuf qlen callback arg).heap = s.heap) ∧
    (0 ≤ qlen →
      ares_send w env s qbuf qlen callback arg =
        (ares_send_ex env s qbuf qlen.toNat callback arg).2) := by
  constructor
  · intro hneg
    have hbad := size_t_of_negative_int w qlen hw hmin hneg
    unfold ares_send
    rw [bad_length_path env s qbuf _ callback arg (Or.inr hbad)]
    simp [invoke, log, callback_calls]
  · intro hpos
    unfold ares_send
    rw [size_t_of_nonnegative_int w qlen hmax hpos]

/-- Witness of C13: qlen = -1 with a 64-bit size_t. -/
theorem ares_send_effect_witness :
    ((32 : Nat) ≤ 64 ∧ -(2 : Int) ^ (64 - 1) ≤ -1 ∧ (-1 : Int) < (2 : Int) ^ (64 - 1) ∧
      (-1 : Int) < 0) ∧
    (ares_send 64 sample_env sample_state sample_message (-1) 1 2).trace =
      sample_state.trace ++
        [Event.callback ⟨1, 2, ARES_EBADQUERY, 0, NULL, 0⟩ sample_state.channel] :=
  ⟨⟨by decide, by norm_num, by norm_num, by decide⟩,
   ((ares_send_effect 64 sample_env sample_state sample_message (-1) 1 2 (by decide)
      (by norm_num) (by norm_num)).1 (by decide)).1⟩

end Ares
